import Mathlib

/-!
Verification of the external pinger service (`external_pinger.py`).

Shallow embedding: the mutable `self.stats` dict becomes the `Stats`
structure, timestamps become `Nat`, and `uptime_percentage` is an exact
rational.  Each HTTP GET to an endpoint is abstracted by a `ReqOutcome`
(a response with some status code, a timeout, a connection error, or any
other request-level error); an environment `String → ReqOutcome` fixes
the outcome of each endpoint within a cycle.  `ping_target` is the probe
cycle, `update_uptime` is `_update_uptime`, and `loopStep` is one turn of
the `start_pinging` while-loop (the try/except around a cycle plus the
choice of sleep duration).
-/

/-- The shared statistics record (`self.stats` in `ExternalPinger.__init__`). -/
structure Stats where
  start_time : Nat
  total_pings : Nat
  successful_pings : Nat
  failed_pings : Nat
  last_ping : Option Nat
  last_success : Option Nat
  uptime_percentage : ℚ
  consecutive_failures : Nat
deriving Repr, DecidableEq

/-- Initial statistics, as set in `ExternalPinger.__init__`. -/
def initStats (t0 : Nat) : Stats :=
  { start_time := t0
    total_pings := 0
    successful_pings := 0
    failed_pings := 0
    last_ping := none
    last_success := none
    uptime_percentage := 100
    consecutive_failures := 0 }

/-- The endpoint fallback list, in priority order (`self.endpoints`). -/
def endpoints : List String := ["/health", "/ping", "/", "/status"]

/-- Outcome of one `requests.get` call: a response with a status code, or
one of the exception classes caught in `ping_target`. -/
inductive ReqOutcome where
  | response (status_code : Nat)
  | timeout
  | connectionError
  | otherError
deriving Repr, DecidableEq

/-- The success test of `ping_target`: `response.status_code == 200`;
every other outcome (non-200 response or raised exception) continues to
the next endpoint. -/
def isSuccess : ReqOutcome → Bool
  | .response code => code == 200
  | _ => false

/-- `_update_uptime`: recompute `uptime_percentage` only when
`total_pings > 0`. -/
def update_uptime (s : Stats) : Stats :=
  if s.total_pings > 0 then
    { s with uptime_percentage := ((s.successful_pings : ℚ) / (s.total_pings : ℚ)) * 100 }
  else s

/-- The `for endpoint in self.endpoints` loop of `ping_target`: on the
first outcome with status code 200, record the success and return `true`;
a failed attempt falls through to the next endpoint; when the list is
exhausted, record the full-cycle failure and return `false`. -/
def tryEndpoints (env : String → ReqOutcome) (now : Nat) (s : Stats) :
    List String → Stats × Bool
  | [] =>
      (update_uptime { s with
        failed_pings := s.failed_pings + 1
        consecutive_failures := s.consecutive_failures + 1 }, false)
  | e :: rest =>
      if isSuccess (env e) then
        (update_uptime { s with
          successful_pings := s.successful_pings + 1
          last_success := some now
          consecutive_failures := 0 }, true)
      else
        tryEndpoints env now s rest

/-- One probe cycle (`ping_target`): increment `total_pings`, stamp
`last_ping`, then walk the endpoint list. -/
def ping_target (s : Stats) (env : String → ReqOutcome) (now : Nat) : Stats × Bool :=
  tryEndpoints env now
    { s with total_pings := s.total_pings + 1, last_ping := some now }
    endpoints

/-- A sequence of probe cycles: the environment and timestamp of each. -/
abbrev CycleInput := (String → ReqOutcome) × Nat

/-- Run a list of probe cycles in order, threading the statistics. -/
def runCycles (s : Stats) : List CycleInput → Stats
  | [] => s
  | c :: rest => runCycles (ping_target s c.1 c.2).1 rest

/-- What the `start_pinging` loop does after the cycle body: sleep for
some number of seconds, or leave the loop. -/
inductive LoopAction where
  | sleep (seconds : Nat)
  | exit
deriving Repr, DecidableEq

/-- What happens during one turn of the `while True` loop in
`start_pinging`: the cycle runs normally, or a KeyboardInterrupt is
raised, or some other unexpected exception escapes. -/
inductive LoopEvent where
  | normal (env : String → ReqOutcome) (now : Nat)
  | keyboardInterrupt
  | unexpectedError

/-- One turn of the `start_pinging` loop: a normal turn runs
`ping_target` and then sleeps `ping_interval // 2` when
`consecutive_failures >= 3` and the full `ping_interval` otherwise; a
KeyboardInterrupt breaks the loop; any other exception is caught, the
loop sleeps a fixed 60 seconds and continues. -/
def loopStep (s : Stats) (interval : Nat) : LoopEvent → Stats × LoopAction
  | .normal env now =>
      let s' := (ping_target s env now).1
      if s'.consecutive_failures ≥ 3 then
        (s', .sleep (interval / 2))
      else
        (s', .sleep interval)
  | .keyboardInterrupt => (s, .exit)
  | .unexpectedError => (s, .sleep 60)

/-! ### Helper lemmas about `update_uptime` and `tryEndpoints` -/

@[simp] theorem update_uptime_start_time (s : Stats) :
    (update_uptime s).start_time = s.start_time := by
  unfold update_uptime; split <;> rfl

@[simp] theorem update_uptime_total (s : Stats) :
    (update_uptime s).total_pings = s.total_pings := by
  unfold update_uptime; split <;> rfl

@[simp] theorem update_uptime_successful (s : Stats) :
    (update_uptime s).successful_pings = s.successful_pings := by
  unfold update_uptime; split <;> rfl

@[simp] theorem update_uptime_failed (s : Stats) :
    (update_uptime s).failed_pings = s.failed_pings := by
  unfold update_uptime; split <;> rfl

@[simp] theorem update_uptime_last_ping (s : Stats) :
    (update_uptime s).last_ping = s.last_ping := by
  unfold update_uptime; split <;> rfl

@[simp] theorem update_uptime_last_success (s : Stats) :
    (update_uptime s).last_success = s.last_success := by
  unfold update_uptime; split <;> rfl

@[simp] theorem update_uptime_consecutive (s : Stats) :
    (update_uptime s).consecutive_failures = s.consecutive_failures := by
  unfold update_uptime; split <;> rfl

theorem update_uptime_pos (s : Stats) (h : 0 < s.total_pings) :
    (update_uptime s).uptime_percentage =
      ((s.successful_pings : ℚ) / (s.total_pings : ℚ)) * 100 := by
  unfold update_uptime; rw [if_pos h]

theorem isSuccess_iff (r : ReqOutcome) :
    isSuccess r = true ↔ r = ReqOutcome.response 200 := by
  cases r with
  | response code => simp [isSuccess]
  | timeout => simp [isSuccess]
  | connectionError => simp [isSuccess]
  | otherError => simp [isSuccess]

/-- The endpoint loop only looks at whether some endpoint in the list
succeeds: the state update on success does not depend on which endpoint
answered. -/
theorem tryEndpoints_eq (env : String → ReqOutcome) (now : Nat) (s : Stats)
    (l : List String) :
    tryEndpoints env now s l =
      if l.any (fun e => isSuccess (env e)) then
        (update_uptime { s with
          successful_pings := s.successful_pings + 1
          last_success := some now
          consecutive_failures := 0 }, true)
      else
        (update_uptime { s with
          failed_pings := s.failed_pings + 1
          consecutive_failures := s.consecutive_failures + 1 }, false) := by
  induction l with
  | nil => simp [tryEndpoints]
  | cons e rest ih =>
      by_cases h : isSuccess (env e) <;>
        simp [tryEndpoints, h, ih, List.any_cons]

/-- The combined inductive invariant of the statistics record: the count
equation and the uptime formula, after any sequence of cycles. -/
theorem runCycles_invariant (t0 : Nat) (cycles : List CycleInput) :
    (runCycles (initStats t0) cycles).total_pings =
      (runCycles (initStats t0) cycles).successful_pings +
        (runCycles (initStats t0) cycles).failed_pings ∧
    (runCycles (initStats t0) cycles).uptime_percentage =
      (if (runCycles (initStats t0) cycles).total_pings = 0 then (100 : ℚ)
       else ((runCycles (initStats t0) cycles).successful_pings : ℚ) /
         ((runCycles (initStats t0) cycles).total_pings : ℚ) * 100) := by
  suffices h : ∀ (cycles : List CycleInput) (s : Stats),
      s.total_pings = s.successful_pings + s.failed_pings →
      s.uptime_percentage =
        (if s.total_pings = 0 then (100 : ℚ)
         else (s.successful_pings : ℚ) / (s.total_pings : ℚ) * 100) →
      (runCycles s cycles).total_pings =
        (runCycles s cycles).successful_pings + (runCycles s cycles).failed_pings ∧
      (runCycles s cycles).uptime_percentage =
        (if (runCycles s cycles).total_pings = 0 then (100 : ℚ)
         else ((runCycles s cycles).successful_pings : ℚ) /
           ((runCycles s cycles).total_pings : ℚ) * 100) by
    exact h cycles (initStats t0) rfl (by simp [initStats])
  intro cycles
  induction cycles with
  | nil => intro s h1 h2; exact ⟨h1, h2⟩
  | cons c rest ih =>
      intro s h1 h2
      apply ih
      · -- count equation after one cycle
        simp only [ping_target, tryEndpoints_eq]
        split <;> simp [h1, Nat.add_assoc, Nat.add_comm, Nat.add_left_comm]
      · -- uptime formula after one cycle
        simp only [ping_target, tryEndpoints_eq]
        split <;>
        · rw [update_uptime_pos _ (by simp)]
          simp

/-! ### Claim theorems -/

/-- C1: for every sequence of probe-cycle outcomes, after every completed
call to `ping_target` the statistics satisfy
`total_pings = successful_pings + failed_pings`; moreover each cycle
increments `total_pings` by exactly 1 and exactly one of
`successful_pings` or `failed_pings` by exactly 1. -/
theorem total_pings_eq_sum (t0 : Nat) (cycles : List CycleInput) :
    ((runCycles (initStats t0) cycles).total_pings =
      (runCycles (initStats t0) cycles).successful_pings +
        (runCycles (initStats t0) cycles).failed_pings) ∧
    (∀ (s : Stats) (env : String → ReqOutcome) (now : Nat),
      (ping_target s env now).1.total_pings = s.total_pings + 1 ∧
      (((ping_target s env now).1.successful_pings = s.successful_pings + 1 ∧
        (ping_target s env now).1.failed_pings = s.failed_pings) ∨
       ((ping_target s env now).1.successful_pings = s.successful_pings ∧
        (ping_target s env now).1.failed_pings = s.failed_pings + 1))) := by
  refine ⟨(runCycles_invariant t0 cycles).1, ?_⟩
  intro s env now
  cases hany : endpoints.any (fun e => isSuccess (env e)) <;>
    simp [ping_target, tryEndpoints_eq, hany]

/-- C2: at initialization and after every cycle, `uptime_percentage`
equals exactly 100 when `total_pings = 0`, and equals
`successful_pings / total_pings * 100` when `total_pings > 0`. -/
theorem uptime_percentage_formula (t0 : Nat) (cycles : List CycleInput) :
    (runCycles (initStats t0) cycles).uptime_percentage =
      (if (runCycles (initStats t0) cycles).total_pings = 0 then (100 : ℚ)
       else ((runCycles (initStats t0) cycles).successful_pings : ℚ) /
         ((runCycles (initStats t0) cycles).total_pings : ℚ) * 100) :=
  (runCycles_invariant t0 cycles).2

/-- C4: after a cycle in which some endpoint returned status 200,
`consecutive_failures` is exactly 0; after a cycle in which no endpoint
returned 200, `consecutive_failures` is its pre-cycle value plus 1. -/
theorem consecutive_failures_transitions (s : Stats) (env : String → ReqOutcome)
    (now : Nat) :
    ((∃ e ∈ endpoints, env e = ReqOutcome.response 200) →
      (ping_target s env now).1.consecutive_failures = 0) ∧
    ((∀ e ∈ endpoints, env e ≠ ReqOutcome.response 200) →
      (ping_target s env now).1.consecutive_failures =
        s.consecutive_failures + 1) := by
  constructor
  · rintro ⟨e, he, h200⟩
    have hany : endpoints.any (fun x => isSuccess (env x)) = true :=
      List.any_eq_true.mpr ⟨e, he, (isSuccess_iff _).mpr h200⟩
    simp [ping_target, tryEndpoints_eq, hany]
  · intro h
    have hany : endpoints.any (fun x => isSuccess (env x)) = false := by
      rw [List.any_eq_false]
      intro x hx
      simp only [isSuccess_iff]
      exact h x hx
    simp [ping_target, tryEndpoints_eq, hany]

/-- C9: frame condition of a probe cycle: `start_time` is never changed;
`last_ping` is stamped on every cycle; a fully-failed cycle leaves
`successful_pings` and `last_success` unchanged; a successful cycle
leaves `failed_pings` unchanged. -/
theorem ping_target_frame (s : Stats) (env : String → ReqOutcome) (now : Nat) :
    (ping_target s env now).1.start_time = s.start_time ∧
    (ping_target s env now).1.last_ping = some now ∧
    ((ping_target s env now).2 = false →
      (ping_target s env now).1.successful_pings = s.successful_pings ∧
      (ping_target s env now).1.last_success = s.last_success) ∧
    ((ping_target s env now).2 = true →
      (ping_target s env now).1.failed_pings = s.failed_pings) := by
  cases hany : endpoints.any (fun e => isSuccess (env e)) <;>
    simp [ping_target, tryEndpoints_eq, hany]

/-- C10: `uptime_percentage` always lies in the closed interval
[0, 100], and `successful_pings ≤ total_pings` after every cycle. -/
theorem uptime_percentage_range (t0 : Nat) (cycles : List CycleInput) :
    0 ≤ (runCycles (initStats t0) cycles).uptime_percentage ∧
    (runCycles (initStats t0) cycles).uptime_percentage ≤ 100 ∧
    (runCycles (initStats t0) cycles).successful_pings ≤
      (runCycles (initStats t0) cycles).total_pings := by
  obtain ⟨hcount, hup⟩ := runCycles_invariant t0 cycles
  set s := runCycles (initStats t0) cycles with hs
  have hle : s.successful_pings ≤ s.total_pings := by omega
  refine ⟨?_, ?_, hle⟩ <;> rw [hup]
  · split
    · norm_num
    · positivity
  · split
    · norm_num
    · next htot =>
        have hpos : (0 : ℚ) < (s.total_pings : ℚ) := by
          exact_mod_cast Nat.pos_of_ne_zero htot
        have hdiv : (s.successful_pings : ℚ) / (s.total_pings : ℚ) ≤ 1 :=
          (div_le_one hpos).mpr (by exact_mod_cast hle)
        calc (s.successful_pings : ℚ) / (s.total_pings : ℚ) * 100
            ≤ 1 * 100 := by
              exact mul_le_mul_of_nonneg_right hdiv (by norm_num)
          _ = 100 := by norm_num

/-- An environment in which every endpoint answers HTTP 200. -/
def allHealthyEnv : String → ReqOutcome := fun _ => ReqOutcome.response 200

/-- An environment in which every request raises a connection error. -/
def allFailEnv : String → ReqOutcome := fun _ => ReqOutcome.connectionError

/-- C3: within a cycle the endpoints are tried in the configured order,
and the first endpoint answering status 200 ends the cycle as a success:
the success fields are recorded, the result does not depend on the
endpoints after it in the list, and `ping_target` returns `true`,
regardless of how many earlier endpoints failed. -/
theorem first_success_halts_cycle (s : Stats) (env : String → ReqOutcome)
    (now : Nat) (pre post : List String) (e : String)
    (horder : endpoints = pre ++ e :: post)
    (_hpre : ∀ x ∈ pre, isSuccess (env x) = false)
    (h200 : env e = ReqOutcome.response 200) :
    ping_target s env now =
      (update_uptime { s with
        total_pings := s.total_pings + 1
        last_ping := some now
        successful_pings := s.successful_pings + 1
        last_success := some now
        consecutive_failures := 0 }, true) ∧
    (∀ post' : List String,
      tryEndpoints env now
        { s with total_pings := s.total_pings + 1, last_ping := some now }
        (pre ++ e :: post') = ping_target s env now) := by
  have hs : isSuccess (env e) = true := by rw [h200]; rfl
  have hany : ∀ l : List String,
      (pre ++ e :: l).any (fun x => isSuccess (env x)) = true := by
    intro l
    simp [List.any_append, List.any_cons, hs]
  constructor
  · rw [ping_target, horder, tryEndpoints_eq, if_pos (hany post)]
  · intro post'
    rw [ping_target, horder, tryEndpoints_eq, tryEndpoints_eq,
      if_pos (hany post), if_pos (hany post')]

/-- Witness for C3: a fresh pinger whose target answers 200 on the first
endpoint records one successful ping. -/
theorem first_success_halts_cycle_witness :
    ping_target (initStats 0) allHealthyEnv 7 =
      (update_uptime { initStats 0 with
        total_pings := (initStats 0).total_pings + 1
        last_ping := some 7
        successful_pings := (initStats 0).successful_pings + 1
        last_success := some 7
        consecutive_failures := 0 }, true) :=
  (first_success_halts_cycle (initStats 0) allHealthyEnv 7 []
    ["/ping", "/", "/status"] "/health" rfl (by simp) rfl).1

/-- C5: after a normal loop turn the chosen sleep duration is
`interval / 2` (floor) whenever `consecutive_failures ≥ 3` afterwards and
the full `interval` otherwise; scenario: interval 300, three consecutive
fully-failed cycles from a fresh start give `consecutive_failures = 3`,
a next sleep of 150 seconds, and `uptime_percentage = 0`. -/
theorem sleep_selection (s : Stats) (interval : Nat)
    (env : String → ReqOutcome) (now : Nat) :
    ((ping_target s env now).1.consecutive_failures ≥ 3 →
      (loopStep s interval (.normal env now)).2 =
        LoopAction.sleep (interval / 2)) ∧
    ((ping_target s env now).1.consecutive_failures < 3 →
      (loopStep s interval (.normal env now)).2 = LoopAction.sleep interval) ∧
    (runCycles (initStats 0)
      [(allFailEnv, 1), (allFailEnv, 2), (allFailEnv, 3)]).consecutive_failures
      = 3 ∧
    (loopStep (runCycles (initStats 0) [(allFailEnv, 1), (allFailEnv, 2)]) 300
      (.normal allFailEnv 3)).2 = LoopAction.sleep 150 ∧
    (runCycles (initStats 0)
      [(allFailEnv, 1), (allFailEnv, 2), (allFailEnv, 3)]).uptime_percentage
      = 0 := by
  refine ⟨?_, ?_, ?_, ?_, ?_⟩
  · intro h
    simp only [loopStep]
    split
    · rfl
    · next hlt => exact absurd h hlt
  · intro h
    simp only [loopStep]
    split
    · next hge => exact absurd hge (by omega)
    · rfl
  · decide
  · decide
  · norm_num [runCycles, ping_target, tryEndpoints, endpoints, update_uptime,
      allFailEnv, isSuccess, initStats]

/-- C6: an individual endpoint failure within a cycle, whether a timeout,
a connection error, any other request-level error, or a response with a
non-200 status, is absorbed: the walk simply continues with the remaining
endpoints from an unchanged statistics record. -/
theorem endpoint_failure_absorbed (env : String → ReqOutcome) (now : Nat)
    (s : Stats) (e : String) (rest : List String)
    (hfail : env e = ReqOutcome.timeout ∨ env e = ReqOutcome.connectionError ∨
      env e = ReqOutcome.otherError ∨
      ∃ code, code ≠ 200 ∧ env e = ReqOutcome.response code) :
    tryEndpoints env now s (e :: rest) = tryEndpoints env now s rest := by
  have hs : isSuccess (env e) = false := by
    rcases hfail with h | h | h | ⟨code, hcode, h⟩ <;> simp [isSuccess, h]
    exact hcode
  simp [tryEndpoints, hs]

/-- Witness for C6: a timeout on the first endpoint leaves the walk over
the remaining endpoints, and the statistics, untouched. -/
theorem endpoint_failure_absorbed_witness :
    tryEndpoints (fun _ => ReqOutcome.timeout) 4 (initStats 0) ["/health"] =
      tryEndpoints (fun _ => ReqOutcome.timeout) 4 (initStats 0) [] :=
  endpoint_failure_absorbed (fun _ => ReqOutcome.timeout) 4 (initStats 0)
    "/health" [] (Or.inl rfl)

/-- C7: an unexpected exception escaping a cycle makes the loop sleep a
fixed 60 seconds and continue with the statistics unchanged; a
KeyboardInterrupt leaves the loop; and leaving the loop happens exactly on
a KeyboardInterrupt, so no unanticipated exception ever terminates the
probe loop. -/
theorem loop_never_terminated_by_error (s : Stats) (interval : Nat) :
    loopStep s interval LoopEvent.unexpectedError = (s, LoopAction.sleep 60) ∧
    loopStep s interval LoopEvent.keyboardInterrupt = (s, LoopAction.exit) ∧
    (∀ ev, (loopStep s interval ev).2 = LoopAction.exit ↔
      ev = LoopEvent.keyboardInterrupt) := by
  refine ⟨rfl, rfl, ?_⟩
  intro ev
  cases ev with
  | normal env now =>
      simp only [loopStep]
      split <;> simp
  | keyboardInterrupt => simp [loopStep]
  | unexpectedError => simp [loopStep]
